import Mathlib

/-!
Verification of the job-application tracker's session store
(`src/contexts/AuthContext.jsx`) and request gateway
(`src/services/api.ts`).

The embedding makes the ambient mutable state of the browser explicit:
`localStorage` entries for the token and the serialized user, the axios
default `Authorization` header, the React `user` state, the in-memory
`MOCK_USERS` table, and `window.location.href` are collected in one
`AppState` record that every operation transforms.

Strings stored under the `user` key are modelled by `StoredUser`:
`JSON.stringify` of a user record always yields a string that parses back
to that record (`StoredUser.valid`), while any other stored string either
parses to nothing or throws in `JSON.parse` (`StoredUser.malformed`).
JavaScript truthiness of a string (non-null and non-empty) is modelled
explicitly wherever the source tests a string with `if (s)`.
-/

/-- String helper: is `needle` a prefix of the second list? (char-by-char) -/
def charsPrefix : List Char → List Char → Bool
  | [], _ => true
  | _ :: _, [] => false
  | a :: as, b :: bs => a == b && charsPrefix as bs

/-- String helper: does the second list contain `needle` as a contiguous
sublist? Mirrors JavaScript `String.prototype.includes`. -/
def charsIncludes (needle : List Char) : List Char → Bool
  | [] => charsPrefix needle []
  | c :: t => charsPrefix needle (c :: t) || charsIncludes needle t

/-- `strIncludes s sub` is JavaScript `s.includes(sub)`. -/
def strIncludes (s sub : String) : Bool := charsIncludes sub.toList s.toList

/-- ASCII lowering of a string, as `toLowerCase` behaves on HTTP method
names. -/
def lowerString (s : String) : String := String.mk (s.toList.map Char.toLower)

/-- A record of the in-memory `MOCK_USERS` table in `AuthContext.jsx`. -/
structure User where
  id : String
  email : String
  password : String
  name : String
  isVerified : Bool
  deriving DecidableEq, Repr

/-- The public user fields persisted by `login` (no password). -/
structure UserData where
  id : String
  email : String
  name : String
  isVerified : Bool
  deriving DecidableEq, Repr

/-- The string stored under the `user` key of `localStorage`:
either the `JSON.stringify` image of a user record (which `JSON.parse`
recovers), or any other string (on which `JSON.parse` throws). -/
inductive StoredUser where
  | valid (u : UserData)
  | malformed (s : String)
  deriving DecidableEq, Repr

/-- `JSON.parse` of a stored user string: succeeds exactly on serialized
user records. -/
def parseStoredUser : StoredUser → Option UserData
  | .valid u => some u
  | .malformed _ => none

/-- JavaScript truthiness of the stored user string: the empty string is
falsy, every other stored string is truthy (`JSON.stringify` of a record
is never empty). -/
def storedTruthy : StoredUser → Bool
  | .valid _ => true
  | .malformed s => s != ""

/-- One record of `MOCK_DATA.applications` in `api.ts`. -/
structure Application where
  id : String
  company : String
  position : String
  status : String
  appliedDate : String
  salary : Nat
  location : String
  notes : String
  deriving DecidableEq, Repr

/-- One record of `MOCK_DATA.resumes` in `api.ts`. -/
structure Resume where
  id : String
  name : String
  filename : String
  fileSize : Nat
  uploadDate : String
  isDefault : Bool
  tags : List String
  usageCount : Nat
  deriving DecidableEq, Repr

/-- One record of `MOCK_DATA.reminders` in `api.ts`. -/
structure Reminder where
  id : String
  title : String
  description : String
  date : String
  time : String
  type : String
  isCompleted : Bool
  notificationSent : Bool
  deriving DecidableEq, Repr

/-- The shape of `MOCK_DATA` in `api.ts`. -/
structure MockData where
  applications : List Application
  resumes : List Resume
  reminders : List Reminder
  deriving DecidableEq, Repr

/-- The `MOCK_DATA` constant of `api.ts`, field for field. -/
def MOCK_DATA : MockData :=
  { applications :=
      [ { id := "1", company := "Google", position := "Senior Frontend Developer",
          status := "interview", appliedDate := "2024-01-15", salary := 150000,
          location := "Mountain View, CA",
          notes := "Great company culture, exciting projects" },
        { id := "2", company := "Microsoft", position := "Full Stack Engineer",
          status := "applied", appliedDate := "2024-01-10", salary := 140000,
          location := "Seattle, WA",
          notes := "Applied through LinkedIn" },
        { id := "3", company := "Apple", position := "iOS Developer",
          status := "offer", appliedDate := "2024-01-05", salary := 160000,
          location := "Cupertino, CA",
          notes := "Received offer, considering options" } ],
    resumes :=
      [ { id := "1", name := "Senior Developer Resume",
          filename := "resume-senior-dev.pdf", fileSize := 245760,
          uploadDate := "2024-01-01", isDefault := true,
          tags := ["senior", "frontend", "react"], usageCount := 5 },
        { id := "2", name := "Full Stack Resume",
          filename := "resume-fullstack.pdf", fileSize := 198432,
          uploadDate := "2024-01-02", isDefault := false,
          tags := ["fullstack", "javascript", "node"], usageCount := 3 } ],
    reminders :=
      [ { id := "1", title := "Google Interview",
          description := "Technical interview with the frontend team",
          date := "2024-01-25", time := "14:00", type := "interview",
          isCompleted := false, notificationSent := false },
        { id := "2", title := "Follow up with Microsoft",
          description := "Send follow-up email about application status",
          date := "2024-01-20", time := "10:00", type := "follow-up",
          isCompleted := false, notificationSent := false } ] }

/-- The seeded `MOCK_USERS` table of `AuthContext.jsx`. -/
def MOCK_USERS : List User :=
  [ { id := "1", email := "demo@jobtracker.com", password := "password123",
      name := "Demo User", isVerified := true },
    { id := "2", email := "john@example.com", password := "password123",
      name := "John Smith", isVerified := true },
    { id := "3", email := "test@test.com", password := "test123",
      name := "Test User", isVerified := true } ]

/-- The ambient mutable state touched by the session store and the
gateway: the two `localStorage` entries, the axios default header, the
React `user` state, the user table, and `window.location.href`. -/
structure AppState where
  storageToken : Option String
  storageUser : Option StoredUser
  authHeader : Option String
  currentUser : Option UserData
  users : List User
  locationHref : String
  deriving DecidableEq, Repr

/-- The fresh state at module initialization: empty storage entries are
modelled by `none`, no default header, no current user, the seeded user
table. -/
def initialState : AppState :=
  { storageToken := none, storageUser := none, authHeader := none,
    currentUser := none, users := MOCK_USERS, locationHref := "/" }

/-- The token synthesized by `login`: `mock-jwt-token-${Date.now()}`. -/
def mkToken (now : Nat) : String := "mock-jwt-token-" ++ toString now

/-- The public fields `login` extracts from a matched user record. -/
def publicUser (u : User) : UserData :=
  { id := u.id, email := u.email, name := u.name, isVerified := u.isVerified }

/-- `login(email, password)` from `AuthContext.jsx`: look up an exact
email+password match in the table; on failure throw
`Invalid email or password` leaving all state as it was; on success
persist the synthesized token and public user fields, set the default
header, and set the current user. `now` stands for `Date.now()`. -/
def login (st : AppState) (email pw : String) (now : Nat) :
    AppState × Except String Unit :=
  match st.users.find? (fun u => u.email == email && u.password == pw) with
  | none => (st, .error "Invalid email or password")
  | some mockUser =>
    let token := mkToken now
    let userData := publicUser mockUser
    ({ st with
        storageToken := some token,
        storageUser := some (.valid userData),
        authHeader := some ("Bearer " ++ token),
        currentUser := some userData }, .ok ())

/-- `register(name, email, password)` from `AuthContext.jsx`: throw if a
record with the email exists, otherwise append a new record with
`id = String(length + 1)` and `isVerified: true`; no session fields are
touched in either case. -/
def register (st : AppState) (name email pw : String) :
    AppState × Except String Unit :=
  match st.users.find? (fun u => u.email == email) with
  | some _ => (st, .error "User with this email already exists")
  | none =>
    let newUser : User :=
      { id := toString (st.users.length + 1), email := email,
        password := pw, name := name, isVerified := true }
    ({ st with users := st.users ++ [newUser] }, .ok ())

/-- `logout()` from `AuthContext.jsx`: remove both storage entries,
delete the default header, clear the current user. -/
def logout (st : AppState) : AppState :=
  { st with storageToken := none, storageUser := none,
            authHeader := none, currentUser := none }

/-- The session-restore effect run by `AuthProvider` on mount: if both
storage entries are present and truthy, parse the user; on success set
the current user and the default header, on a parse failure remove both
storage entries. Otherwise do nothing. The `try`/`catch` around
`JSON.parse` means no exception escapes; the embedding is a total
function. -/
def restore (st : AppState) : AppState :=
  match st.storageToken, st.storageUser with
  | some token, some userData =>
    if token != "" && storedTruthy userData then
      match parseStoredUser userData with
      | some parsedUser =>
        { st with currentUser := some parsedUser,
                  authHeader := some ("Bearer " ++ token) }
      | none =>
        { st with storageToken := none, storageUser := none }
    else st
  | _, _ => st

/-- An outgoing request configuration (`config` in the axios request
interceptor). -/
structure RequestConfig where
  url : String
  method : String
  authorization : Option String
  deriving DecidableEq, Repr

/-- The request interceptor of `api.ts`: read the token from storage and,
if it is truthy, set `config.headers.Authorization` to a Bearer
credential. -/
def requestInterceptor (storageToken : Option String) (cfg : RequestConfig) :
    RequestConfig :=
  match storageToken with
  | some token =>
    if token != "" then { cfg with authorization := some ("Bearer " ++ token) }
    else cfg
  | none => cfg

/-- The error object inspected by the response interceptor: `error.code`,
`error.config.url`, `error.config.method`, `error.response?.status`. -/
structure ApiError where
  code : Option String
  configUrl : Option String
  configMethod : Option String
  responseStatus : Option Nat
  deriving DecidableEq, Repr

/-- The derived stats payload of the `/dashboard/stats` fixture. -/
structure DashboardStats where
  totalApplications : Nat
  appliedCount : Nat
  interviewCount : Nat
  offerCount : Nat
  rejectedCount : Nat
  recentApplications : List Application
  upcomingReminders : List Reminder
  deriving DecidableEq, Repr

/-- A labelled numeric series of the `/analytics` fixture. -/
structure ChartSeries where
  labels : List String
  data : List Nat
  deriving DecidableEq, Repr

/-- The static `/analytics` fixture payload. -/
structure AnalyticsData where
  statusDistribution : ChartSeries
  monthlyApplications : ChartSeries
  topCompanies : ChartSeries
  responseRate : Nat
  averageResponseTime : Nat
  totalApplications : Nat
  successRate : Nat
  deriving DecidableEq, Repr

/-- The body of a fabricated (mock) response. -/
inductive MockPayload where
  | applications (rows : List Application)
  | resumes (rows : List Resume)
  | reminders (rows : List Reminder)
  | dashboardStats (s : DashboardStats)
  | analytics (a : AnalyticsData)
  deriving DecidableEq, Repr

/-- The outcome of the response interceptor's error handler:
`Promise.resolve` with a mock payload, or `Promise.reject(error)`. -/
inductive InterceptOutcome where
  | resolved (payload : MockPayload)
  | rejected (e : ApiError)
  deriving DecidableEq, Repr

/-- The tail of the error handler: on `error.response?.status === 401`
remove both storage entries and set `window.location.href = '/login'`,
then reject; otherwise just reject. -/
def handle401 (st : AppState) (e : ApiError) : AppState × InterceptOutcome :=
  if e.responseStatus == some 401 then
    ({ st with storageToken := none, storageUser := none,
               locationHref := "/login" }, .rejected e)
  else (st, .rejected e)

/-- The error branch of the response interceptor in `api.ts`: on a
connection-level failure (`ERR_NETWORK` or `ECONNREFUSED`), match the
request URL by substring and the lowercased method against the fixture
table and resolve with the canned payload; otherwise fall through to the
401 handling. -/
def responseErrorInterceptor (st : AppState) (e : ApiError) :
    AppState × InterceptOutcome :=
  if e.code == some "ERR_NETWORK" || e.code == some "ECONNREFUSED" then
    let url := e.configUrl
    let method := e.configMethod.map lowerString
    if (url.map (fun u => strIncludes u "/applications")).getD false
        && method == some "get" then
      (st, .resolved (.applications MOCK_DATA.applications))
    else if (url.map (fun u => strIncludes u "/resumes")).getD false
        && method == some "get" then
      (st, .resolved (.resumes MOCK_DATA.resumes))
    else if (url.map (fun u => strIncludes u "/reminders")).getD false
        && method == some "get" then
      (st, .resolved (.reminders MOCK_DATA.reminders))
    else if (url.map (fun u => strIncludes u "/dashboard/stats")).getD false
        && method == some "get" then
      (st, .resolved (.dashboardStats
        { totalApplications := MOCK_DATA.applications.length,
          appliedCount :=
            (MOCK_DATA.applications.filter (fun a => a.status == "applied")).length,
          interviewCount :=
            (MOCK_DATA.applications.filter (fun a => a.status == "interview")).length,
          offerCount :=
            (MOCK_DATA.applications.filter (fun a => a.status == "offer")).length,
          rejectedCount :=
            (MOCK_DATA.applications.filter (fun a => a.status == "rejected")).length,
          recentApplications := MOCK_DATA.applications.take 5,
          upcomingReminders := MOCK_DATA.reminders.take 3 }))
    else if (url.map (fun u => strIncludes u "/analytics")).getD false
        && method == some "get" then
      (st, .resolved (.analytics
        { statusDistribution :=
            { labels := ["Applied", "Interview", "Offer", "Rejected"],
              data := [1, 1, 1, 0] },
          monthlyApplications :=
            { labels := ["Dec 2023", "Jan 2024"], data := [2, 3] },
          topCompanies :=
            { labels := ["Google", "Microsoft", "Apple"], data := [1, 1, 1] },
          responseRate := 67, averageResponseTime := 7,
          totalApplications := 3, successRate := 33 }))
    else
      handle401 st e
  else
    handle401 st e

/-! ## Helper lemmas -/

/-- The synthesized token is never the empty string. -/
theorem mkToken_ne_empty (now : Nat) : mkToken now ≠ "" := by
  intro h
  have h2 := congrArg String.length h
  rw [mkToken, String.length_append] at h2
  have h3 : "mock-jwt-token-".length = 15 := by decide
  have h4 : "".length = 0 := by decide
  rw [h3, h4] at h2
  omega

/-- A login attempt with no exact email+password match in the table
returns the unchanged state and the invalid-credentials error. -/
theorem login_no_match (st : AppState) (email pw : String) (now : Nat)
    (h : ∀ u ∈ st.users, ¬(u.email = email ∧ u.password = pw)) :
    login st email pw now = (st, .error "Invalid email or password") := by
  have hf : st.users.find? (fun u => u.email == email && u.password == pw) = none := by
    rw [List.find?_eq_none]
    intro u hu
    simp only [Bool.and_eq_true, beq_iff_eq]
    exact h u hu
  simp [login, hf]

/-- The 401 tail of the error handler always rejects with the original
error. -/
theorem handle401_snd (st : AppState) (e : ApiError) :
    (handle401 st e).2 = .rejected e := by
  unfold handle401
  split <;> rfl

/-! ## Claim theorems: session store -/

/-- C4: for every (email, password) pair exactly matching a record in the
user table, `login` succeeds, persists a non-empty token and the matched
user's public fields, sets the gateway default header to a Bearer
credential built from that token, and sets a current session whose email
equals the given email. -/
theorem login_success (st : AppState) (email pw : String) (now : Nat)
    (h : ∃ u ∈ st.users, u.email = email ∧ u.password = pw) :
    ∃ ud : UserData,
      login st email pw now =
        ({ st with storageToken := some (mkToken now),
                   storageUser := some (.valid ud),
                   authHeader := some ("Bearer " ++ mkToken now),
                   currentUser := some ud }, .ok ()) ∧
      ud.email = email ∧ mkToken now ≠ "" := by
  obtain ⟨u, hu, he, hp⟩ := h
  have hsome : (st.users.find? (fun v => v.email == email && v.password == pw)).isSome := by
    rw [List.find?_isSome]
    exact ⟨u, hu, by simp [he, hp]⟩
  obtain ⟨u2, hfind⟩ := Option.isSome_iff_exists.mp hsome
  have hp2 := List.find?_some hfind
  simp only [Bool.and_eq_true, beq_iff_eq] at hp2
  refine ⟨publicUser u2, ?_, hp2.1, mkToken_ne_empty now⟩
  simp [login, hfind]

theorem login_success_witness :
    (∃ u ∈ initialState.users,
        u.email = "demo@jobtracker.com" ∧ u.password = "password123") ∧
    ∃ ud : UserData,
      login initialState "demo@jobtracker.com" "password123" 7 =
        ({ initialState with
              storageToken := some (mkToken 7),
              storageUser := some (.valid ud),
              authHeader := some ("Bearer " ++ mkToken 7),
              currentUser := some ud }, .ok ()) ∧
      ud.email = "demo@jobtracker.com" ∧ mkToken 7 ≠ "" :=
  ⟨by decide,
   login_success initialState "demo@jobtracker.com" "password123" 7 (by decide)⟩

/-- C5: for every (email, password) pair with no exactly matching record,
`login` fails with the invalid-credentials error and returns the state
exactly as it was — persisted token/user, gateway header, and current
session included. -/
theorem login_invalid_unchanged (st : AppState) (email pw : String) (now : Nat)
    (h : ∀ u ∈ st.users, ¬(u.email = email ∧ u.password = pw)) :
    login st email pw now = (st, .error "Invalid email or password") :=
  login_no_match st email pw now h

theorem login_invalid_unchanged_witness :
    (∀ u ∈ initialState.users,
        ¬(u.email = "ghost@example.com" ∧ u.password = "pw")) ∧
    login initialState "ghost@example.com" "pw" 0 =
      (initialState, .error "Invalid email or password") :=
  ⟨by decide,
   login_invalid_unchanged initialState "ghost@example.com" "pw" 0 (by decide)⟩

/-- C6: `register` with an email already in the table fails and leaves
the state (table included) unchanged; with a novel email it appends
exactly one record and the table length grows by one; in both cases the
session fields (persisted token/user, gateway header, current user) are
unchanged. -/
theorem register_spec (st : AppState) (name email pw : String) :
    ((∃ u ∈ st.users, u.email = email) →
      register st name email pw = (st, .error "User with this email already exists")) ∧
    ((∀ u ∈ st.users, u.email ≠ email) →
      (register st name email pw).1.users.length = st.users.length + 1 ∧
      (register st name email pw).1.storageToken = st.storageToken ∧
      (register st name email pw).1.storageUser = st.storageUser ∧
      (register st name email pw).1.authHeader = st.authHeader ∧
      (register st name email pw).1.currentUser = st.currentUser ∧
      (register st name email pw).2 = .ok ()) := by
  constructor
  · rintro ⟨u, hu, he⟩
    have hsome : (st.users.find? (fun v => v.email == email)).isSome := by
      rw [List.find?_isSome]
      exact ⟨u, hu, by simp [he]⟩
    obtain ⟨u2, hfind⟩ := Option.isSome_iff_exists.mp hsome
    simp [register, hfind]
  · intro h
    have hf : st.users.find? (fun v => v.email == email) = none := by
      rw [List.find?_eq_none]
      intro u hu
      simp only [beq_iff_eq]
      exact h u hu
    simp [register, hf]

theorem register_spec_witness :
    ((∃ u ∈ initialState.users, u.email = "demo@jobtracker.com") →
      register initialState "Dup" "demo@jobtracker.com" "pw" =
        (initialState, .error "User with this email already exists")) ∧
    (∃ u ∈ initialState.users, u.email = "demo@jobtracker.com") ∧
    ((∀ u ∈ initialState.users, u.email ≠ "new@example.com") →
      (register initialState "New" "new@example.com" "pw").1.users.length =
        initialState.users.length + 1 ∧
      (register initialState "New" "new@example.com" "pw").1.storageToken =
        initialState.storageToken ∧
      (register initialState "New" "new@example.com" "pw").1.storageUser =
        initialState.storageUser ∧
      (register initialState "New" "new@example.com" "pw").1.authHeader =
        initialState.authHeader ∧
      (register initialState "New" "new@example.com" "pw").1.currentUser =
        initialState.currentUser ∧
      (register initialState "New" "new@example.com" "pw").2 = .ok ()) ∧
    (∀ u ∈ initialState.users, u.email ≠ "new@example.com") :=
  ⟨(register_spec initialState "Dup" "demo@jobtracker.com" "pw").1,
   by decide,
   (register_spec initialState "New" "new@example.com" "pw").2,
   by decide⟩

/-- C7: for every prior state, `logout` leaves the persisted token and
user absent, the gateway default header removed, and the current session
unauthenticated. -/
theorem logout_clears_session (st : AppState) :
    (logout st).storageToken = none ∧ (logout st).storageUser = none ∧
    (logout st).authHeader = none ∧ (logout st).currentUser = none :=
  ⟨rfl, rfl, rfl, rfl⟩

/-- C10: against the same prior state, a login failure for a registered
email with a wrong password and a login failure for an unregistered email
are observationally identical — same thrown message, same (unchanged)
resulting state — so a failed login does not reveal whether the email is
registered. -/
theorem login_failure_indistinguishable (st : AppState)
    (e1 p1 e2 p2 : String) (now : Nat)
    (h1 : ∃ u ∈ st.users, u.email = e1)
    (h2 : ∀ u ∈ st.users, ¬(u.email = e1 ∧ u.password = p1))
    (h3 : ∀ u ∈ st.users, u.email ≠ e2) :
    login st e1 p1 now = login st e2 p2 now ∧
    login st e1 p1 now = (st, .error "Invalid email or password") := by
  have hA := login_no_match st e1 p1 now h2
  have hB := login_no_match st e2 p2 now (fun u hu hc => h3 u hu hc.1)
  exact ⟨hA.trans hB.symm, hA⟩

theorem login_failure_indistinguishable_witness :
    (∃ u ∈ initialState.users, u.email = "demo@jobtracker.com") ∧
    (∀ u ∈ initialState.users,
        ¬(u.email = "demo@jobtracker.com" ∧ u.password = "wrongpw")) ∧
    (∀ u ∈ initialState.users, u.email ≠ "nobody@example.com") ∧
    (login initialState "demo@jobtracker.com" "wrongpw" 3 =
      login initialState "nobody@example.com" "pw" 3 ∧
    login initialState "demo@jobtracker.com" "wrongpw" 3 =
      (initialState, .error "Invalid email or password")) :=
  ⟨by decide, by decide, by decide,
   login_failure_indistinguishable initialState "demo@jobtracker.com" "wrongpw"
     "nobody@example.com" "pw" 3 (by decide) (by decide) (by decide)⟩

/-! ## Claim theorems: session restore -/

/-- C8 counterexample: a start-up state whose stored user value is the
empty string (which is malformed JSON: `JSON.parse` throws on it). The
`if (token && userData)` guard is falsy on the empty string, so the
restore effect skips the branch entirely and both persisted values are
still present afterwards, contradicting the claim that they are removed. -/
def emptyMalformedState : AppState :=
  { storageToken := some "mock-jwt-token-1",
    storageUser := some (.malformed ""),
    authHeader := none, currentUser := none,
    users := MOCK_USERS, locationHref := "/" }

theorem restore_malformed_empty_cex :
    restore emptyMalformedState = emptyMalformedState ∧
    (restore emptyMalformedState).storageToken ≠ none ∧
    (restore emptyMalformedState).storageUser ≠ none ∧
    parseStoredUser (StoredUser.malformed "") = none := by
  decide

/-- C8 (amended): for every start-up state whose persisted token and user
value are both present and truthy (non-empty), with the user value
malformed JSON, `restore` (a total function: the `try`/`catch` lets no
exception escape) removes both persisted values and leaves the session
unauthenticated. -/
theorem restore_malformed_clears (tok s : String) (users : List User)
    (loc : String) (htok : tok ≠ "") (hs : s ≠ "") :
    restore
        { storageToken := some tok, storageUser := some (.malformed s),
          authHeader := none, currentUser := none,
          users := users, locationHref := loc } =
      { storageToken := none, storageUser := none, authHeader := none,
        currentUser := none, users := users, locationHref := loc } := by
  simp [restore, storedTruthy, parseStoredUser, bne_iff_ne, htok, hs]

theorem restore_malformed_clears_witness :
    ("mock-jwt-token-1" ≠ "" ∧ "not json" ≠ "") ∧
    restore
        { storageToken := some "mock-jwt-token-1",
          storageUser := some (.malformed "not json"),
          authHeader := none, currentUser := none,
          users := MOCK_USERS, locationHref := "/" } =
      { storageToken := none, storageUser := none, authHeader := none,
        currentUser := none, users := MOCK_USERS, locationHref := "/" } :=
  ⟨⟨by decide, by decide⟩,
   restore_malformed_clears "mock-jwt-token-1" "not json" MOCK_USERS "/"
     (by decide) (by decide)⟩

/-- C9 counterexample: with a leftover token that is the empty string
(and no user record), `restore` indeed leaves storage unchanged and the
session unauthenticated, but the request interceptor's `if (token)` guard
is falsy, so no Bearer credential is attached to subsequent requests,
contradicting the claim's interceptor part. -/
def emptyTokenOnlyState : AppState :=
  { storageToken := some "", storageUser := none,
    authHeader := none, currentUser := none,
    users := MOCK_USERS, locationHref := "/" }

theorem restore_token_only_empty_cex :
    restore emptyTokenOnlyState = emptyTokenOnlyState ∧
    (requestInterceptor (restore emptyTokenOnlyState).storageToken
        { url := "/applications", method := "get", authorization := none }).authorization
      = none := by
  decide

/-- C9 (amended): for every start-up state holding exactly one of the two
persisted values, `restore` leaves storage unchanged and the session
unauthenticated; in the token-only case with a non-empty leftover token,
the request interceptor still attaches it as a Bearer credential to any
outgoing request. -/
theorem restore_single_value (tok : String) (su : StoredUser)
    (users : List User) (loc : String) (cfg : RequestConfig)
    (htok : tok ≠ "") :
    restore
        { storageToken := some tok, storageUser := none, authHeader := none,
          currentUser := none, users := users, locationHref := loc } =
      { storageToken := some tok, storageUser := none, authHeader := none,
        currentUser := none, users := users, locationHref := loc } ∧
    restore
        { storageToken := none, storageUser := some su, authHeader := none,
          currentUser := none, users := users, locationHref := loc } =
      { storageToken := none, storageUser := some su, authHeader := none,
        currentUser := none, users := users, locationHref := loc } ∧
    (requestInterceptor
        (restore
          { storageToken := some tok, storageUser := none, authHeader := none,
            currentUser := none, users := users, locationHref := loc }).storageToken
        cfg).authorization = some ("Bearer " ++ tok) ∧
    (requestInterceptor
        (restore
          { storageToken := some tok, storageUser := none, authHeader := none,
            currentUser := none, users := users, locationHref := loc }).storageToken
        cfg).url = cfg.url := by
  refine ⟨rfl, rfl, ?_, ?_⟩ <;>
    simp [restore, requestInterceptor, bne_iff_ne, htok]

theorem restore_single_value_witness :
    ("mock-jwt-token-9" ≠ "") ∧
    restore
        { storageToken := some "mock-jwt-token-9", storageUser := none,
          authHeader := none, currentUser := none,
          users := MOCK_USERS, locationHref := "/" } =
      { storageToken := some "mock-jwt-token-9", storageUser := none,
        authHeader := none, currentUser := none,
        users := MOCK_USERS, locationHref := "/" } ∧
    (requestInterceptor
        (restore
          { storageToken := some "mock-jwt-token-9", storageUser := none,
            authHeader := none, currentUser := none,
            users := MOCK_USERS, locationHref := "/" }).storageToken
        { url := "/resumes", method := "get", authorization := none }).authorization
      = some ("Bearer " ++ "mock-jwt-token-9") :=
  ⟨by decide,
   (restore_single_value "mock-jwt-token-9" (.malformed "x") MOCK_USERS "/"
      { url := "/resumes", method := "get", authorization := none }
      (by decide)).1,
   (restore_single_value "mock-jwt-token-9" (.malformed "x") MOCK_USERS "/"
      { url := "/resumes", method := "get", authorization := none }
      (by decide)).2.2.1⟩

/-! ## Claim theorems: request gateway -/

/-- A state in which a user is logged in: both storage entries present,
default header set, current session set. Used to exercise the 401
handler. -/
def preAuthState : AppState :=
  { storageToken := some "mock-jwt-token-1",
    storageUser := some (.valid
      { id := "1", email := "demo@jobtracker.com", name := "Demo User",
        isVerified := true }),
    authHeader := some "Bearer mock-jwt-token-1",
    currentUser := some
      { id := "1", email := "demo@jobtracker.com", name := "Demo User",
        isVerified := true },
    users := MOCK_USERS, locationHref := "/dashboard" }

/-- A 401 error from a reachable backend (no connection-failure code). -/
def err401 : ApiError :=
  { code := none, configUrl := some "/applications",
    configMethod := some "get", responseStatus := some 401 }

/-- C1 counterexample: on a 401 the interceptor removes the persisted
token and user and navigates to the login view, but — unlike `logout` —
it neither deletes the gateway's default Authorization header nor clears
the in-memory current session, so the resulting state is not the one
`logout` produces. -/
theorem intercept401_not_full_logout_cex :
    (responseErrorInterceptor preAuthState err401).1.storageToken = none ∧
    (responseErrorInterceptor preAuthState err401).1.storageUser = none ∧
    (responseErrorInterceptor preAuthState err401).1.locationHref = "/login" ∧
    (responseErrorInterceptor preAuthState err401).1.authHeader ≠ none ∧
    (responseErrorInterceptor preAuthState err401).1.currentUser ≠ none ∧
    (responseErrorInterceptor preAuthState err401).1 ≠ logout preAuthState := by
  decide

/-- C1 (amended): for every error with HTTP status 401 that is not a
connection-level failure, the interceptor removes the persisted token and
user from storage, navigates to the login view, and rejects the error; it
leaves the gateway's default Authorization header and the in-memory
current session untouched (the forced page load, outside this code, is
what resets those). -/
theorem intercept401_clears_storage_and_redirects (st : AppState) (e : ApiError)
    (h1 : e.code ≠ some "ERR_NETWORK") (h2 : e.code ≠ some "ECONNREFUSED")
    (h401 : e.responseStatus = some 401) :
    responseErrorInterceptor st e =
      ({ st with storageToken := none, storageUser := none,
                 locationHref := "/login" }, .rejected e) := by
  have hcode : (e.code == some "ERR_NETWORK" || e.code == some "ECONNREFUSED") = false := by
    simp [h1, h2]
  simp [responseErrorInterceptor, hcode, handle401, h401]

theorem intercept401_clears_storage_and_redirects_witness :
    (err401.code ≠ some "ERR_NETWORK" ∧ err401.code ≠ some "ECONNREFUSED" ∧
      err401.responseStatus = some 401) ∧
    responseErrorInterceptor preAuthState err401 =
      ({ preAuthState with storageToken := none, storageUser := none,
                           locationHref := "/login" }, .rejected err401) :=
  ⟨⟨by decide, by decide, by decide⟩,
   intercept401_clears_storage_and_redirects preAuthState err401
     (by decide) (by decide) (by decide)⟩

/-- C2: under a connection-level failure code, a GET of `/applications`
resolves with exactly the 3-record fixture array, and a GET of
`/dashboard/stats` resolves with the stated counts, which equal the
status-filtered counts over the fixture array. -/
theorem mock_fixture_applications_and_stats (st : AppState) (code : String)
    (hc : code = "ERR_NETWORK" ∨ code = "ECONNREFUSED") :
    responseErrorInterceptor st
        { code := some code, configUrl := some "/applications",
          configMethod := some "get", responseStatus := none } =
      (st, .resolved (.applications MOCK_DATA.applications)) ∧
    MOCK_DATA.applications.length = 3 ∧
    responseErrorInterceptor st
        { code := some code, configUrl := some "/dashboard/stats",
          configMethod := some "get", responseStatus := none } =
      (st, .resolved (.dashboardStats
        { totalApplications := 3, appliedCount := 1, interviewCount := 1,
          offerCount := 1, rejectedCount := 0,
          recentApplications := MOCK_DATA.applications.take 5,
          upcomingReminders := MOCK_DATA.reminders.take 3 })) ∧
    (MOCK_DATA.applications.filter (fun a => a.status == "applied")).length = 1 ∧
    (MOCK_DATA.applications.filter (fun a => a.status == "interview")).length = 1 ∧
    (MOCK_DATA.applications.filter (fun a => a.status == "offer")).length = 1 ∧
    (MOCK_DATA.applications.filter (fun a => a.status == "rejected")).length = 0 := by
  rcases hc with h | h <;> subst h <;>
    exact ⟨rfl, rfl, rfl, rfl, rfl, rfl, rfl⟩

theorem mock_fixture_applications_and_stats_witness :
    ("ERR_NETWORK" = "ERR_NETWORK" ∨ "ERR_NETWORK" = "ECONNREFUSED") ∧
    responseErrorInterceptor initialState
        { code := some "ERR_NETWORK", configUrl := some "/applications",
          configMethod := some "get", responseStatus := none } =
      (initialState, .resolved (.applications MOCK_DATA.applications)) ∧
    responseErrorInterceptor initialState
        { code := some "ERR_NETWORK", configUrl := some "/dashboard/stats",
          configMethod := some "get", responseStatus := none } =
      (initialState, .resolved (.dashboardStats
        { totalApplications := 3, appliedCount := 1, interviewCount := 1,
          offerCount := 1, rejectedCount := 0,
          recentApplications := MOCK_DATA.applications.take 5,
          upcomingReminders := MOCK_DATA.reminders.take 3 })) :=
  ⟨Or.inl rfl,
   (mock_fixture_applications_and_stats initialState "ERR_NETWORK" (Or.inl rfl)).1,
   (mock_fixture_applications_and_stats initialState "ERR_NETWORK" (Or.inl rfl)).2.2.1⟩

/-- The five route fragments of the fixture table in `api.ts`. -/
def contractFragments : List String :=
  ["/applications", "/resumes", "/reminders", "/dashboard/stats", "/analytics"]

/-- Whether a failed request hits the fixture table: its lowercased
method is `get` and its URL contains one of the five route fragments as a
substring. -/
def matchesMockRoute (e : ApiError) : Bool :=
  (e.configMethod.map lowerString == some "get") &&
  contractFragments.any (fun frag =>
    (e.configUrl.map (fun u => strIncludes u frag)).getD false)

/-- If the request does not hit the fixture table, each of the five
branch conditions of the interceptor is false. -/
theorem mock_condition_false (e : ApiError) (frag : String)
    (hfrag : frag ∈ contractFragments)
    (hm : matchesMockRoute e = false) :
    ((e.configUrl.map (fun u => strIncludes u frag)).getD false &&
      (e.configMethod.map lowerString == some "get")) = false := by
  cases hi : (e.configUrl.map (fun u => strIncludes u frag)).getD false
  · simp
  · cases hg : (e.configMethod.map lowerString == some "get")
    · simp [hg]
    · exfalso
      have ht : matchesMockRoute e = true := by
        unfold matchesMockRoute
        rw [hg, Bool.true_and]
        exact List.any_eq_true.mpr ⟨frag, hfrag, hi⟩
      rw [hm] at ht
      exact Bool.false_ne_true ht

/-- C3 counterexample: a GET whose URL is none of the five contract
endpoints still receives the applications fixture, because the
interceptor matches by URL substring. -/
def strayUrlError : ApiError :=
  { code := some "ERR_NETWORK", configUrl := some "/old/applications-deleted",
    configMethod := some "get", responseStatus := none }

theorem mock_substitution_substring_cex :
    (responseErrorInterceptor initialState strayUrlError).2 =
      .resolved (.applications MOCK_DATA.applications) ∧
    (responseErrorInterceptor initialState strayUrlError).2 ≠
      .rejected strayUrlError ∧
    strayUrlError.configUrl ≠ some "/applications" ∧
    strayUrlError.configUrl ≠ some "/resumes" ∧
    strayUrlError.configUrl ≠ some "/reminders" ∧
    strayUrlError.configUrl ≠ some "/dashboard/stats" ∧
    strayUrlError.configUrl ≠ some "/analytics" := by
  decide

/-- C3 (amended): on a connection-level failure a fixture is substituted
exactly when the lowercased method is `get` and the URL contains one of
the five route fragments as a substring — so besides the five contract
endpoints, any URL merely containing a fragment is also served the
fixture; every other request, and every request whose failure is not
connection-level, has its error passed through (rejected unchanged). -/
theorem mock_substitution_characterization (st : AppState) (e : ApiError) :
    ((e.code ≠ some "ERR_NETWORK" ∧ e.code ≠ some "ECONNREFUSED") →
      (responseErrorInterceptor st e).2 = .rejected e) ∧
    (matchesMockRoute e = false →
      (responseErrorInterceptor st e).2 = .rejected e) ∧
    ((e.code = some "ERR_NETWORK" ∨ e.code = some "ECONNREFUSED") →
      matchesMockRoute e = true →
      ∃ p, (responseErrorInterceptor st e).2 = .resolved p) := by
  refine ⟨?_, ?_, ?_⟩
  · rintro ⟨h1, h2⟩
    have hcode : (e.code == some "ERR_NETWORK" || e.code == some "ECONNREFUSED") = false := by
      simp [h1, h2]
    simp only [responseErrorInterceptor, hcode, Bool.false_eq_true, if_false]
    exact handle401_snd st e
  · intro hm
    have c1 := mock_condition_false e "/applications" (by decide) hm
    have c2 := mock_condition_false e "/resumes" (by decide) hm
    have c3 := mock_condition_false e "/reminders" (by decide) hm
    have c4 := mock_condition_false e "/dashboard/stats" (by decide) hm
    have c5 := mock_condition_false e "/analytics" (by decide) hm
    unfold responseErrorInterceptor
    split
    · simp only [c1, c2, c3, c4, c5, Bool.false_eq_true, if_false]
      exact handle401_snd st e
    · exact handle401_snd st e
  · intro hcode hm
    have hcodeb : (e.code == some "ERR_NETWORK" || e.code == some "ECONNREFUSED") = true := by
      rcases hcode with h | h <;> simp [h]
    have hm' := hm
    unfold matchesMockRoute at hm'
    rw [Bool.and_eq_true] at hm'
    obtain ⟨hg, hany⟩ := hm'
    by_cases k1 : ((e.configUrl.map (fun u => strIncludes u "/applications")).getD false) = true
    · exact ⟨.applications MOCK_DATA.applications, by
        simp [responseErrorInterceptor, hcodeb, k1, hg]⟩
    rw [Bool.not_eq_true] at k1
    by_cases k2 : ((e.configUrl.map (fun u => strIncludes u "/resumes")).getD false) = true
    · exact ⟨.resumes MOCK_DATA.resumes, by
        simp [responseErrorInterceptor, hcodeb, k1, k2, hg]⟩
    rw [Bool.not_eq_true] at k2
    by_cases k3 : ((e.configUrl.map (fun u => strIncludes u "/reminders")).getD false) = true
    · exact ⟨.reminders MOCK_DATA.reminders, by
        simp [responseErrorInterceptor, hcodeb, k1, k2, k3, hg]⟩
    rw [Bool.not_eq_true] at k3
    by_cases k4 : ((e.configUrl.map (fun u => strIncludes u "/dashboard/stats")).getD false) = true
    · refine ⟨.dashboardStats
        { totalApplications := MOCK_DATA.applications.length,
          appliedCount :=
            (MOCK_DATA.applications.filter (fun a => a.status == "applied")).length,
          interviewCount :=
            (MOCK_DATA.applications.filter (fun a => a.status == "interview")).length,
          offerCount :=
            (MOCK_DATA.applications.filter (fun a => a.status == "offer")).length,
          rejectedCount :=
            (MOCK_DATA.applications.filter (fun a => a.status == "rejected")).length,
          recentApplications := MOCK_DATA.applications.take 5,
          upcomingReminders := MOCK_DATA.reminders.take 3 }, ?_⟩
      simp [responseErrorInterceptor, hcodeb, k1, k2, k3, k4, hg]
    rw [Bool.not_eq_true] at k4
    by_cases k5 : ((e.configUrl.map (fun u => strIncludes u "/analytics")).getD false) = true
    · refine ⟨.analytics
        { statusDistribution :=
            { labels := ["Applied", "Interview", "Offer", "Rejected"],
              data := [1, 1, 1, 0] },
          monthlyApplications :=
            { labels := ["Dec 2023", "Jan 2024"], data := [2, 3] },
          topCompanies :=
            { labels := ["Google", "Microsoft", "Apple"], data := [1, 1, 1] },
          responseRate := 67, averageResponseTime := 7,
          totalApplications := 3, successRate := 33 }, ?_⟩
      simp [responseErrorInterceptor, hcodeb, k1, k2, k3, k4, k5, hg]
    rw [Bool.not_eq_true] at k5
    exfalso
    rw [List.any_eq_true] at hany
    obtain ⟨frag, hfrag, hincl⟩ := hany
    have hfrag' : frag = "/applications" ∨ frag = "/resumes" ∨ frag = "/reminders" ∨
        frag = "/dashboard/stats" ∨ frag = "/analytics" := by
      simpa [contractFragments] using hfrag
    rcases hfrag' with h | h | h | h | h <;> subst h
    · rw [k1] at hincl; exact Bool.false_ne_true hincl
    · rw [k2] at hincl; exact Bool.false_ne_true hincl
    · rw [k3] at hincl; exact Bool.false_ne_true hincl
    · rw [k4] at hincl; exact Bool.false_ne_true hincl
    · rw [k5] at hincl; exact Bool.false_ne_true hincl

theorem mock_substitution_characterization_witness :
    (matchesMockRoute
        { code := some "ERR_NETWORK", configUrl := some "/applications",
          configMethod := some "post", responseStatus := none } = false) ∧
    (responseErrorInterceptor initialState
        { code := some "ERR_NETWORK", configUrl := some "/applications",
          configMethod := some "post", responseStatus := none }).2 =
      .rejected
        { code := some "ERR_NETWORK", configUrl := some "/applications",
          configMethod := some "post", responseStatus := none } :=
  ⟨by decide,
   (mock_substitution_characterization initialState
      { code := some "ERR_NETWORK", configUrl := some "/applications",
        configMethod := some "post", responseStatus := none }).2.1 (by decide)⟩
